import Mathlib

/-!
Verification of the chatbot-backend HTTP adapter (`main.py`).

The program is a thin request/response adapter around an external agent
runtime: it translates a wire-level chat history into the runtime's
message format, invokes the runtime, extracts the final answer by a
reverse scan, translates the final conversation back to wire form, and
maps failures to a uniform HTTP error. The definitions below are a
shallow embedding of that code; external collaborators (the agent
runtime, the search provider, the validation engine) are modelled as
explicit function parameters or `Except`-valued calls.
-/

/-- A tool-call record. On the wire it is an opaque plain mapping
(a Python `dict`), modelled as an association list of key/value pairs. -/
abbrev ToolCall := List (String × String)

/-- Serialization of a tool-call record to plain mapping form
(`tc.dict()` in the source): the record is already a plain mapping, so
serialization yields the record's own key/value data. -/
def ToolCall.dict (tc : ToolCall) : ToolCall := tc

/-- Wire model of one chat turn (`ChatMessage` in `main.py`):
`sender`, `content`, and a `tool_calls` list defaulting to empty. -/
structure ChatMessage where
  sender : String
  content : String
  tool_calls : List ToolCall := []
  deriving Repr, DecidableEq

/-- Wire model of the request body (`ChatRequest` in `main.py`):
a required `message` and a `chat_history` defaulting to empty. -/
structure ChatRequest where
  message : String
  chat_history : List ChatMessage := []
  deriving Repr, DecidableEq

/-- Wire model of the response body (`ChatResponse` in `main.py`). -/
structure ChatResponse where
  response : String
  chat_history : List ChatMessage
  deriving Repr, DecidableEq

/-- Internal conversation message (the LangChain message classes used by
`main.py`): `HumanMessage`, `AIMessage` (with pending tool calls), and
`ToolMessage` (with the originating call identifier). -/
inductive BaseMessage where
  | human (content : String)
  | ai (content : String) (tool_calls : List ToolCall)
  | toolMessage (content : String) (tool_call_id : String)
  deriving Repr, DecidableEq

/-- Inbound translation of a single wire turn (the loop body at
`main.py` lines 103-107): sender `"user"` becomes a Human message,
sender `"bot"` becomes an Assistant message carrying the same content
and tool-call records, and any other sender is dropped. -/
def toInternalMsg? (msg : ChatMessage) : Option BaseMessage :=
  if msg.sender == "user" then
    some (BaseMessage.human msg.content)
  else if msg.sender == "bot" then
    some (BaseMessage.ai msg.content msg.tool_calls)
  else
    none

/-- Inbound translation of the whole wire history (`history_messages`
in `main.py`). -/
def toInternalHistory (hist : List ChatMessage) : List BaseMessage :=
  hist.filterMap toInternalMsg?

/-- The conversation passed to the runtime (`full_chat_history` at
`main.py` line 109): the translated history followed by a Human message
built from the request's `message`. -/
def full_chat_history (req : ChatRequest) : List BaseMessage :=
  toInternalHistory req.chat_history ++ [BaseMessage.human req.message]

/-- One step of the reverse scan at `main.py` lines 115-122, applied to
the reversed final message list: an Assistant message with no pending
tool calls is returned, a Human message stops the scan with no answer,
and everything else (ToolMessage, Assistant with pending calls) is
skipped. -/
def scanForAnswer : List BaseMessage → Option String
  | [] => none
  | BaseMessage.ai c [] :: _ => some c
  | BaseMessage.human _ :: _ => none
  | _ :: rest => scanForAnswer rest

/-- Extraction of the answer from the final conversation: the scan runs
over `reversed(final_state["messages"])`. -/
def extractAnswer (msgs : List BaseMessage) : Option String :=
  scanForAnswer msgs.reverse

/-- The fixed placeholder text used when no qualifying Assistant message
is found (`main.py` line 127). -/
def placeholderText : String :=
  "Thinking... (AI is processing tool output or waiting for more context.)"

/-- The `response` field of the reply (`ai_response_content` at
`main.py` lines 124-127): the extracted answer, or the placeholder. -/
def ai_response_content (msgs : List BaseMessage) : String :=
  match extractAnswer msgs with
  | some c => c
  | none => placeholderText

/-- Outbound translation of one internal message (the loop body at
`main.py` lines 130-137): Human becomes a `"user"` turn; Assistant
becomes a `"bot"` turn with its tool-call records serialized to plain
mappings; ToolMessage becomes a `"bot"` turn with the synthetic
`*(Tool Output for <id>): <output>*` content. -/
def toWireMsg (msg : BaseMessage) : ChatMessage :=
  match msg with
  | BaseMessage.human c =>
      { sender := "user", content := c }
  | BaseMessage.ai c tcs =>
      { sender := "bot", content := c, tool_calls := tcs.map ToolCall.dict }
  | BaseMessage.toolMessage c id =>
      { sender := "bot",
        content := "*(Tool Output for " ++ id ++ "): " ++ c ++ "*" }

/-- Outbound translation of the final conversation (`new_chat_history`
in `main.py`). -/
def toWire (msgs : List BaseMessage) : List ChatMessage :=
  msgs.map toWireMsg

/-- The successful reply built at `main.py` line 139 from the runtime's
final message list. -/
def chatResponseOf (finalMsgs : List BaseMessage) : ChatResponse :=
  { response := ai_response_content finalMsgs
    chat_history := toWire finalMsgs }

/-- Outcome of the HTTP operation: a validation rejection (client
error), a successful `ChatResponse`, or the `HTTPException` raised at
`main.py` line 143. -/
inductive HttpResult where
  | clientError (status : Nat) (detail : String)
  | ok (resp : ChatResponse)
  | serverError (status : Nat) (detail : String)
  deriving Repr, DecidableEq

/-- The body of `chat_endpoint` (`main.py` lines 99-143). The external
agent runtime (`app_runnable.ainvoke`) is a parameter returning either
a final message list or the text of a raised exception; an exception is
caught by the `except` block and mapped to HTTP 500 with the
stringified exception. -/
def chat_endpoint (req : ChatRequest)
    (runtime : List BaseMessage → Except String (List BaseMessage)) :
    HttpResult :=
  match runtime (full_chat_history req) with
  | Except.ok finalMsgs => HttpResult.ok (chatResponseOf finalMsgs)
  | Except.error e =>
      HttpResult.serverError 500 ("Internal server error: " ++ e)

/-- Modelled from the spec: FastAPI/pydantic schema validation of the
request body, whose engine is external to the repository. `ChatRequest`
(`main.py` lines 89-91) declares `message` as required and
`chat_history` as optional with default `[]`; a body missing `message`
is rejected with a client-error validation response (HTTP 422) before
the handler body runs. -/
def handle_chat (message : Option String)
    (chat_history : Option (List ChatMessage))
    (runtime : List BaseMessage → Except String (List BaseMessage)) :
    HttpResult :=
  match message with
  | none => HttpResult.clientError 422 "Field required: message"
  | some m =>
      chat_endpoint { message := m, chat_history := chat_history.getD [] }
        runtime

/-- The `tavily_search` tool (`main.py` lines 62-70). The external
provider call (`TavilySearchResults.invoke` followed by `str`) is a
parameter returning either the stringified results or the text of a
raised exception; an exception is caught and turned into an error
string. -/
def tavily_search (provider : String → Except String String)
    (query : String) : String :=
  match provider query with
  | Except.ok results => results
  | Except.error e => "Error performing Tavily search: " ++ e

/-- The `placeholder_search` stub (`main.py` lines 73-76). -/
def placeholder_search (_query : String) : String :=
  "Search functionality is currently unavailable (Tavily API key not set)."

/-- Python truthiness of the optional credential string read by
`os.getenv` (`main.py` lines 42, 47): absent or empty is falsy. -/
def pyTruthy : Option String → Bool
  | none => false
  | some s => !(s == "")

/-- The startup flag `tavily_search_enabled` (`main.py` lines 47-51). -/
def tavily_search_enabled (key : Option String) : Bool :=
  pyTruthy key

/-- The one-time startup selection of the search capability
(`main.py` lines 60-77): the live tool when the credential is set,
otherwise the stub. -/
def searchTool (key : Option String)
    (provider : String → Except String String) : String → String :=
  if tavily_search_enabled key then tavily_search provider
  else placeholder_search

/-- Sender and content survive the wire-to-internal-to-wire round trip
on every turn whose sender is recognized; unrecognized turns are the
ones dropped inbound. -/
lemma wire_senderContent_roundtrip (turns : List ChatMessage) :
    (toWire (toInternalHistory turns)).map (fun t => (t.sender, t.content))
      = (turns.filter
          (fun t => t.sender == "user" || t.sender == "bot")).map
          (fun t => (t.sender, t.content)) := by
  induction turns with
  | nil => rfl
  | cons t rest ih =>
    rcases t with ⟨s, c, tcs⟩
    by_cases hu : s = "user"
    · subst hu
      simpa [toInternalHistory, toInternalMsg?, toWire, toWireMsg,
        List.filterMap_cons] using ih
    · by_cases hb : s = "bot"
      · subst hb
        simpa [toInternalHistory, toInternalMsg?, toWire, toWireMsg,
          List.filterMap_cons] using ih
      · simpa [toInternalHistory, toInternalMsg?, toWire, toWireMsg,
          List.filterMap_cons, hu, hb] using ih

/-- Inbound translation is length-preserving on histories whose turns
all carry a recognized sender. -/
lemma toInternalHistory_length_recognized (hist : List ChatMessage)
    (h : ∀ t ∈ hist, t.sender = "user" ∨ t.sender = "bot") :
    (toInternalHistory hist).length = hist.length := by
  induction hist with
  | nil => rfl
  | cons t rest ih =>
    have ht := h t (List.mem_cons_self t rest)
    have hrest : ∀ x ∈ rest, x.sender = "user" ∨ x.sender = "bot" :=
      fun x hx => h x (List.mem_cons_of_mem t hx)
    have hsome : ∃ m, toInternalMsg? t = some m := by
      rcases ht with hu | hb
      · exact ⟨BaseMessage.human t.content, by simp [toInternalMsg?, hu]⟩
      · exact ⟨BaseMessage.ai t.content t.tool_calls,
          by simp [toInternalMsg?, hb]⟩
    obtain ⟨m, hm⟩ := hsome
    have hrec := ih hrest
    rw [toInternalHistory] at hrec ⊢
    rw [List.filterMap_cons, hm, List.length_cons, hrec, List.length_cons]

/-- C1: scanning the final conversation in reverse, the first Assistant
message with no pending tool calls is returned as the answer; a Human
message encountered first stops the scan with no answer; ToolResult
messages are skipped; when no qualifying Assistant message is found the
response is the fixed placeholder text; in particular a conversation
ending in Human, ToolResult, Assistant("X", no calls) yields "X", and
one ending in Human, Assistant("", one pending call) yields the
placeholder. -/
theorem C1_answer_extraction :
    (∀ (rest : List BaseMessage) (c : String),
        scanForAnswer (BaseMessage.ai c [] :: rest) = some c)
  ∧ (∀ (rest : List BaseMessage) (c : String),
        scanForAnswer (BaseMessage.human c :: rest) = none)
  ∧ (∀ (rest : List BaseMessage) (c id : String),
        scanForAnswer (BaseMessage.toolMessage c id :: rest)
          = scanForAnswer rest)
  ∧ (∀ msgs : List BaseMessage,
        extractAnswer msgs = scanForAnswer msgs.reverse)
  ∧ (∀ msgs : List BaseMessage,
        extractAnswer msgs = none →
        ai_response_content msgs = placeholderText)
  ∧ (∀ h o i : String,
        ai_response_content
          [BaseMessage.human h, BaseMessage.toolMessage o i,
           BaseMessage.ai "X" []] = "X")
  ∧ (∀ (h : String) (tc : ToolCall),
        ai_response_content [BaseMessage.human h, BaseMessage.ai "" [tc]]
          = placeholderText) := by
  refine ⟨fun rest c => rfl, fun rest c => rfl, fun rest c id => rfl,
    fun msgs => rfl, ?_, fun h o i => rfl, fun h tc => rfl⟩
  intro msgs hnone
  simp [ai_response_content, hnone]

/-- A conversation whose final message is a Human turn has no extracted
answer, so the response is the placeholder (instance of C1). -/
theorem C1_answer_extraction_witness :
    ai_response_content [BaseMessage.human "q"] = placeholderText :=
  C1_answer_extraction.2.2.2.2.1 [BaseMessage.human "q"] rfl

/-- C2: inbound translation maps a "user" turn to a Human message with
the same content, a "bot" turn to an Assistant message with the same
content and tool-call records verbatim, silently drops a turn with an
unrecognized sender, and appends a final Human message built from the
request's `message`; for an empty history and message "hello" the
runtime receives exactly one Human message "hello". -/
theorem C2_inbound_translation :
    (∀ (rest : List ChatMessage) (c : String) (tcs : List ToolCall),
        toInternalHistory
            ({ sender := "user", content := c, tool_calls := tcs } :: rest)
          = BaseMessage.human c :: toInternalHistory rest)
  ∧ (∀ (rest : List ChatMessage) (c : String) (tcs : List ToolCall),
        toInternalHistory
            ({ sender := "bot", content := c, tool_calls := tcs } :: rest)
          = BaseMessage.ai c tcs :: toInternalHistory rest)
  ∧ (∀ (rest : List ChatMessage) (s c : String) (tcs : List ToolCall),
        s ≠ "user" → s ≠ "bot" →
        toInternalHistory
            ({ sender := s, content := c, tool_calls := tcs } :: rest)
          = toInternalHistory rest)
  ∧ (∀ req : ChatRequest,
        full_chat_history req
          = toInternalHistory req.chat_history
              ++ [BaseMessage.human req.message])
  ∧ (full_chat_history { message := "hello", chat_history := [] }
        = [BaseMessage.human "hello"]) := by
  refine ⟨?_, ?_, ?_, fun req => rfl, by decide⟩
  · intro rest c tcs
    simp [toInternalHistory, toInternalMsg?, List.filterMap_cons]
  · intro rest c tcs
    simp [toInternalHistory, toInternalMsg?, List.filterMap_cons]
  · intro rest s c tcs hs1 hs2
    simp [toInternalHistory, toInternalMsg?, List.filterMap_cons, hs1, hs2]

/-- A history turn whose sender is "alien" is dropped by inbound
translation (instance of C2). -/
theorem C2_inbound_translation_witness :
    toInternalHistory
        [{ sender := "alien", content := "hi", tool_calls := [] }] = [] := by
  have h := C2_inbound_translation.2.2.1 [] "alien" "hi" []
    (by decide) (by decide)
  simpa [toInternalHistory] using h

/-- C3: outbound translation maps a Human message to a "user" turn, an
Assistant message to a "bot" turn carrying the assistant text and its
tool-call records serialized to plain mappings, and a ToolResult
message to a "bot" turn whose content is exactly
`*(Tool Output for <id>): <output>*`; it is a per-message map, so
ordering is preserved and no turns are merged or deduplicated, and
every produced turn has sender "user" or "bot", never exposing the
internal tagged-variant distinction. -/
theorem C3_outbound_translation :
    (∀ c : String,
        toWireMsg (BaseMessage.human c)
          = { sender := "user", content := c, tool_calls := [] })
  ∧ (∀ (c : String) (tcs : List ToolCall),
        toWireMsg (BaseMessage.ai c tcs)
          = { sender := "bot", content := c,
              tool_calls := tcs.map ToolCall.dict })
  ∧ (∀ c id : String,
        toWireMsg (BaseMessage.toolMessage c id)
          = { sender := "bot",
              content := "*(Tool Output for " ++ id ++ "): " ++ c ++ "*",
              tool_calls := [] })
  ∧ (∀ msgs : List BaseMessage, toWire msgs = msgs.map toWireMsg)
  ∧ (∀ msgs : List BaseMessage, (toWire msgs).length = msgs.length)
  ∧ (∀ msgs : List BaseMessage, ∀ t ∈ toWire msgs,
        t.sender = "user" ∨ t.sender = "bot") := by
  refine ⟨fun c => rfl, fun c tcs => rfl, fun c id => rfl,
    fun msgs => rfl, fun msgs => by simp [toWire], ?_⟩
  intro msgs t ht
  rw [toWire] at ht
  obtain ⟨m, hm, rfl⟩ := List.mem_map.1 ht
  cases m <;> simp [toWireMsg]

/-- The turn produced from a Human message has sender "user"
(instance of C3). -/
theorem C3_outbound_translation_witness :
    ({ sender := "user", content := "hi" } : ChatMessage).sender = "user"
  ∨ ({ sender := "user", content := "hi" } : ChatMessage).sender = "bot" :=
  C3_outbound_translation.2.2.2.2.2 [BaseMessage.human "hi"]
    { sender := "user", content := "hi" } (by decide)

/-- C4 fails as stated: a history turn with an unrecognized sender is
silently dropped inbound, so for the request with history
[{sender := "alien", content := "hi"}] and message "hello", with the
runtime appending one Assistant reply (two new turns: the appended
Human plus the reply), the returned transcript has length 2, which is
less than input length 1 plus the 2 new turns, and the input turn is
not a prefix of the output transcript. -/
theorem C4_counterexample :
    ((chatResponseOf (full_chat_history
        { message := "hello",
          chat_history := [{ sender := "alien", content := "hi" }] }
        ++ [BaseMessage.ai "ok" []])).chat_history.length < 1 + 2)
  ∧ ((chatResponseOf (full_chat_history
        { message := "hello",
          chat_history := [{ sender := "alien", content := "hi" }] }
        ++ [BaseMessage.ai "ok" []])).chat_history.take 1
      ≠ [{ sender := "alien", content := "hi" }]) := by
  constructor
  · decide
  · decide

/-- C4 (amended): for every ChatRequest whose history turns all carry a
recognized sender ("user" or "bot"), and every list of messages the
runtime appends, the returned `chat_history` has length exactly input
length plus the new turns (the appended Human message plus the
runtime's messages) — hence never shorter than the input — and the
input turns appear as an unreordered prefix of the output transcript up
to sender and content (tool-call lists are re-serialized outbound, so
they are not part of the prefix equality). -/
theorem C4_amended (req : ChatRequest) (extra : List BaseMessage)
    (hrec : ∀ t ∈ req.chat_history, t.sender = "user" ∨ t.sender = "bot") :
    ((chatResponseOf (full_chat_history req ++ extra)).chat_history.length
        = req.chat_history.length + 1 + extra.length)
  ∧ (((chatResponseOf (full_chat_history req ++ extra)).chat_history.take
        req.chat_history.length).map (fun t => (t.sender, t.content))
      = req.chat_history.map (fun t => (t.sender, t.content))) := by
  have hlen : (toInternalHistory req.chat_history).length
      = req.chat_history.length :=
    toInternalHistory_length_recognized req.chat_history hrec
  constructor
  · simp only [chatResponseOf, toWire, full_chat_history,
      List.length_map, List.length_append, List.length_cons,
      List.length_nil, hlen]
  · have key := wire_senderContent_roundtrip req.chat_history
    have hfilter : req.chat_history.filter
        (fun t => t.sender == "user" || t.sender == "bot")
        = req.chat_history :=
      List.filter_eq_self.2 (by intro a ha; simpa using hrec a ha)
    rw [hfilter] at key
    have hwlen : (toWire (toInternalHistory req.chat_history)).length
        = req.chat_history.length := by
      simpa [toWire] using hlen
    have hsplit : toWire (full_chat_history req ++ extra)
        = toWire (toInternalHistory req.chat_history)
          ++ toWire (BaseMessage.human req.message :: extra) := by
      simp [toWire, full_chat_history]
    have htake : (toWire (full_chat_history req ++ extra)).take
        req.chat_history.length
        = toWire (toInternalHistory req.chat_history) := by
      rw [hsplit, ← hwlen, List.take_left]
    simp only [chatResponseOf]
    rw [htake, key]

/-- Instance of the amended C4: one recognized history turn, message
"hello", one runtime reply; output length is 1 + 1 + 1 and the prefix
agrees with the input in sender and content. -/
theorem C4_amended_witness :
    ((chatResponseOf (full_chat_history
          { message := "hello",
            chat_history := [{ sender := "user", content := "hi" }] }
        ++ [BaseMessage.ai "ok" []])).chat_history.length
      = ([{ sender := "user", content := "hi" }] : List ChatMessage).length
        + 1 + ([BaseMessage.ai "ok" []] : List BaseMessage).length)
  ∧ (((chatResponseOf (full_chat_history
          { message := "hello",
            chat_history := [{ sender := "user", content := "hi" }] }
        ++ [BaseMessage.ai "ok" []])).chat_history.take
        ([{ sender := "user", content := "hi" }] : List ChatMessage).length).map
        (fun t => (t.sender, t.content))
      = ([{ sender := "user", content := "hi" }] : List ChatMessage).map
        (fun t => (t.sender, t.content))) :=
  C4_amended
    { message := "hello",
      chat_history := [{ sender := "user", content := "hi" }] }
    [BaseMessage.ai "ok" []] (by decide)

/-- C5: an exception raised during agent-runtime invocation inside the
/chat handler is caught at the HTTP boundary and surfaced as HTTP 500
whose detail carries the stringified exception, and no ChatResponse
(partial or otherwise) is returned for that request. -/
theorem C5_exception_mapping (req : ChatRequest)
    (runtime : List BaseMessage → Except String (List BaseMessage))
    (e : String) (h : runtime (full_chat_history req) = Except.error e) :
    chat_endpoint req runtime
        = HttpResult.serverError 500 ("Internal server error: " ++ e)
  ∧ (∀ resp : ChatResponse,
        chat_endpoint req runtime ≠ HttpResult.ok resp) := by
  constructor
  · simp [chat_endpoint, h]
  · intro resp
    simp [chat_endpoint, h]

/-- Instance of C5: a runtime that raises "boom" yields HTTP 500 with
the stringified exception and no ChatResponse. -/
theorem C5_exception_mapping_witness :
    chat_endpoint { message := "hello" } (fun _ => Except.error "boom")
        = HttpResult.serverError 500 ("Internal server error: " ++ "boom")
  ∧ (∀ resp : ChatResponse,
        chat_endpoint { message := "hello" } (fun _ => Except.error "boom")
          ≠ HttpResult.ok resp) :=
  C5_exception_mapping { message := "hello" }
    (fun _ => Except.error "boom") "boom" rfl

/-- C6: when the external search provider call raises, the search
capability returns (rather than propagates) a text that is exactly the
stringified exception behind the literal prefix
"Error performing Tavily search:", so the failure never escapes the
tool. -/
theorem C6_search_error_contained
    (provider : String → Except String String) (query e : String)
    (h : provider query = Except.error e) :
    tavily_search provider query = "Error performing Tavily search: " ++ e
  ∧ (∃ rest : String,
      tavily_search provider query
        = "Error performing Tavily search:" ++ rest) := by
  have h1 : tavily_search provider query
      = "Error performing Tavily search: " ++ e := by
    simp [tavily_search, h]
  refine ⟨h1, " " ++ e, ?_⟩
  rw [h1, ← String.append_assoc]
  have hsp : ("Error performing Tavily search:" ++ " " : String)
      = "Error performing Tavily search: " := by decide
  rw [hsp]

/-- Instance of C6: a provider that raises "boom" yields the
error-prefixed text. -/
theorem C6_search_error_contained_witness :
    tavily_search (fun _ => Except.error "boom") "q"
        = "Error performing Tavily search: " ++ "boom"
  ∧ (∃ rest : String,
      tavily_search (fun _ => Except.error "boom") "q"
        = "Error performing Tavily search:" ++ rest) :=
  C6_search_error_contained (fun _ => Except.error "boom") "q" "boom" rfl

/-- C7: when the search-provider credential is absent at startup, the
selected search capability is the stub, and for every query (and every
provider implementation) it returns exactly the fixed literal text. -/
theorem C7_stub_when_no_key (key : Option String)
    (provider : String → Except String String) (query : String)
    (h : key = none) :
    searchTool key provider query
      = "Search functionality is currently unavailable (Tavily API key not set)." := by
  subst h
  rfl

/-- Instance of C7: with no credential, the query "anything" gets the
fixed unavailable message. -/
theorem C7_stub_when_no_key_witness :
    searchTool none (fun q => Except.ok q) "anything"
      = "Search functionality is currently unavailable (Tavily API key not set)." :=
  C7_stub_when_no_key none (fun q => Except.ok q) "anything" rfl

/-- C8: translating a wire conversation to the internal representation
and back preserves the sender role and the message content of every
"user" and "bot" turn in order; the turns dropped are exactly those
with an unrecognized sender, and ToolResult turns (which are one-way
flattened) do not arise from inbound translation. -/
theorem C8_roundtrip (turns : List ChatMessage) :
    (toWire (toInternalHistory turns)).map (fun t => (t.sender, t.content))
      = (turns.filter
          (fun t => t.sender == "user" || t.sender == "bot")).map
          (fun t => (t.sender, t.content)) :=
  wire_senderContent_roundtrip turns

/-- C9: a request body with no `message` field is rejected with a
client-error validation response (HTTP 422): the handler body never
runs, the outcome does not depend on the agent runtime at all, and the
rejection is never a server error nor a ChatResponse. -/
theorem C9_missing_message_rejected
    (chat_history : Option (List ChatMessage))
    (rt1 rt2 : List BaseMessage → Except String (List BaseMessage)) :
    handle_chat none chat_history rt1
        = HttpResult.clientError 422 "Field required: message"
  ∧ handle_chat none chat_history rt1 = handle_chat none chat_history rt2
  ∧ (∀ s d, handle_chat none chat_history rt1
        ≠ HttpResult.serverError s d)
  ∧ (∀ resp, handle_chat none chat_history rt1 ≠ HttpResult.ok resp) := by
  refine ⟨rfl, rfl, ?_, ?_⟩
  · intro s d
    simp [handle_chat]
  · intro resp
    simp [handle_chat]

/-- C10: in every transcript the endpoint builds, a turn with a
non-empty `tool_calls` list can only come from an Assistant message;
turns derived from Human messages (sender "user") and from ToolResult
messages carry an empty `tool_calls` list. -/
theorem C10_tool_calls_only_from_assistant
    (msgs : List BaseMessage) (t : ChatMessage) (ht : t ∈ toWire msgs) :
    (t.sender = "user" → t.tool_calls = [])
  ∧ (t.tool_calls ≠ [] →
      ∃ c tcs, BaseMessage.ai c tcs ∈ msgs
        ∧ t = toWireMsg (BaseMessage.ai c tcs))
  ∧ (∀ c, (toWireMsg (BaseMessage.human c)).tool_calls = [])
  ∧ (∀ c id, (toWireMsg (BaseMessage.toolMessage c id)).tool_calls = []) := by
  rw [toWire] at ht
  obtain ⟨m, hm, rfl⟩ := List.mem_map.1 ht
  refine ⟨?_, ?_, fun c => rfl, fun c id => rfl⟩
  · intro hs
    cases m with
    | human c => rfl
    | ai c tcs => simp [toWireMsg] at hs
    | toolMessage c id => rfl
  · intro htc
    cases m with
    | human c => simp [toWireMsg] at htc
    | ai c tcs => exact ⟨c, tcs, hm, rfl⟩
    | toolMessage c id => simp [toWireMsg] at htc

/-- Instance of C10: the turn produced from a Human message has empty
`tool_calls`, and the structural facts about per-message translation
hold at it. -/
theorem C10_tool_calls_only_from_assistant_witness :
    (({ sender := "user", content := "hi" } : ChatMessage).sender = "user" →
      ({ sender := "user", content := "hi" } : ChatMessage).tool_calls = [])
  ∧ (({ sender := "user", content := "hi" } : ChatMessage).tool_calls ≠ [] →
      ∃ c tcs, BaseMessage.ai c tcs ∈ [BaseMessage.human "hi"]
        ∧ ({ sender := "user", content := "hi" } : ChatMessage)
            = toWireMsg (BaseMessage.ai c tcs))
  ∧ (∀ c, (toWireMsg (BaseMessage.human c)).tool_calls = [])
  ∧ (∀ c id, (toWireMsg (BaseMessage.toolMessage c id)).tool_calls = []) :=
  C10_tool_calls_only_from_assistant [BaseMessage.human "hi"]
    { sender := "user", content := "hi" } (by decide)
